import Mathlib

/-!
Verification of the implementor-registration fragment
`doc/implementors/core/iter/trait.FromIterator.js`.

The fragment is an immediately-invoked script that builds a literal
mapping from package name to a list of HTML descriptor strings and then
hands it off: if the global `window.register_implementors` is truthy it
is called with the mapping as sole argument, otherwise the mapping is
stored into `window.pending_implementors`.

The embedding below models JavaScript values (to the precision the
fragment can observe: truthiness and callability), the page-global
state, and the run of the fragment as a pure state transformer that also
records an event trace (controller calls, slot writes, console output)
and the abnormal-completion outcome (a TypeError when a truthy
non-function value is applied).
-/

/-- A JavaScript value, to the precision the fragment observes.
Function and object payloads are opaque identities. -/
inductive JSValue where
  | undefined : JSValue
  | null : JSValue
  | bool : Bool → JSValue
  | num : Int → JSValue
  | str : String → JSValue
  | fn : Nat → JSValue
  | obj : Nat → JSValue
deriving DecidableEq

/-- JavaScript ToBoolean: `undefined`, `null`, `false`, `0` and the
empty string are falsy; every other modelled value is truthy. -/
def JSValue.truthy : JSValue → Bool
  | .undefined => false
  | .null => false
  | .bool b => b
  | .num n => n != 0
  | .str s => s != ""
  | .fn _ => true
  | .obj _ => true

/-- An ImplementorEntry is an opaque rendering descriptor (an HTML
string) for one implementation. -/
abbrev ImplementorEntry := String

/-- An ImplementorsMapping: a JavaScript-object-like mapping from
package name to an ordered sequence of descriptors, modelled as an
association list in property-insertion order. -/
abbrev ImplementorsMapping := List (String × List ImplementorEntry)

/-- The empty object literal `\x7b\x7d` the fragment starts from. -/
def emptyMapping : ImplementorsMapping := []

/-- JavaScript property assignment `m[k] = v`: replace the value when
the key is already present, otherwise append the new key. -/
def assign (m : ImplementorsMapping) (k : String) (v : List ImplementorEntry) :
    ImplementorsMapping :=
  if m.any (fun p => p.1 == k) then
    m.map (fun p => if p.1 == k then (k, v) else p)
  else
    m ++ [(k, v)]

/-- Property lookup `m[k]`: `none` models an absent key. -/
def mlookup (m : ImplementorsMapping) (k : String) :
    Option (List ImplementorEntry) :=
  (m.find? (fun p => p.1 == k)).map Prod.snd

/-- The descriptor the fragment assigns to the `ndarray` package
(source line 2, second assignment). -/
def ndarrayEntry : ImplementorEntry :=
  "impl&lt;A, S&gt; <a class=\x27trait\x27 href=\x27https://doc.rust-lang.org/nightly/core/iter/trait.FromIterator.html\x27 title=\x27core::iter::FromIterator\x27>FromIterator</a>&lt;A&gt; for <a class=\x27struct\x27 href=\x27ndarray/struct.ArrayBase.html\x27 title=\x27ndarray::ArrayBase\x27>ArrayBase</a>&lt;S, <a class=\x27type\x27 href=\x27ndarray/type.Ix.html\x27 title=\x27ndarray::Ix\x27>Ix</a>&gt; <span class=\x27where\x27>where S: <a class=\x27trait\x27 href=\x27ndarray/trait.DataOwned.html\x27 title=\x27ndarray::DataOwned\x27>DataOwned</a>&lt;Elem=A&gt;</span>"

/-- The descriptor the fragment assigns to the `sprs` package
(source line 2, third assignment). -/
def sprsEntry : ImplementorEntry :=
  "impl&lt;A, S&gt; <a class=\x27trait\x27 href=\x27https://doc.rust-lang.org/nightly/core/iter/trait.FromIterator.html\x27 title=\x27core::iter::FromIterator\x27>FromIterator</a>&lt;A&gt; for <a class=\x27struct\x27 href=\x27ndarray/struct.ArrayBase.html\x27 title=\x27ndarray::ArrayBase\x27>ArrayBase</a>&lt;S, <a class=\x27primitive\x27 href=\x27https://doc.rust-lang.org/nightly/std/primitive.usize.html\x27>usize</a>&gt; <span class=\x27where\x27>where S: <a class=\x27trait\x27 href=\x27ndarray/data_traits/trait.DataOwned.html\x27 title=\x27ndarray::data_traits::DataOwned\x27>DataOwned</a>&lt;Elem=A&gt;</span>"

/-- The mapping the fragment constructs (source lines 1-2): start from
the empty object, then assign `libc`, `ndarray` and `sprs` in turn. -/
def implementors : ImplementorsMapping :=
  assign (assign (assign emptyMapping "libc" []) "ndarray" [ndarrayEntry])
    "sprs" [sprsEntry]

/-- The page-wide global state the fragment can observe or touch:
the controller reference `window.register_implementors`, the pending
slot `window.pending_implementors`, and all other window properties
(which the fragment never names). -/
structure PageState where
  register_implementors : JSValue
  pending_implementors : Option ImplementorsMapping
  otherGlobals : List (String × JSValue)
deriving DecidableEq

/-- The abnormal completions JavaScript could produce here. -/
inductive JSError where
  | typeError : JSError
deriving DecidableEq

/-- Everything observable about one run of the fragment: whether it
completed normally, the final global state, the trace of controller
invocations (each with the argument passed), the trace of pending-slot
writes, console output, and the completion value of the script. -/
structure RunResult where
  outcome : Option JSError
  finalState : PageState
  controllerCalls : List ImplementorsMapping
  slotWrites : List ImplementorsMapping
  consoleLog : List String
  returnValue : JSValue
deriving DecidableEq

/-- One run of the fragment (source lines 4-8): test
`window.register_implementors` for truthiness; when truthy, apply it to
`implementors` (a TypeError when the value is not a function — the
throw propagates before any global is written); when falsy, store
`implementors` into `window.pending_implementors`. -/
def fragmentRun (s : PageState) : RunResult :=
  if s.register_implementors.truthy then
    match s.register_implementors with
    | .fn _ =>
        { outcome := none
          finalState := s
          controllerCalls := [implementors]
          slotWrites := []
          consoleLog := []
          returnValue := .undefined }
    | _ =>
        { outcome := some .typeError
          finalState := s
          controllerCalls := []
          slotWrites := []
          consoleLog := []
          returnValue := .undefined }
  else
    { outcome := none
      finalState := { s with pending_implementors := some implementors }
      controllerCalls := []
      slotWrites := [implementors]
      consoleLog := []
      returnValue := .undefined }

/-- A controller reference conforming to the data model of the spec:
either a function, or a falsy value (absent included). -/
def refOk : JSValue → Bool
  | .fn _ => true
  | v => !v.truthy

/-- A state with the controller reference present as a function. -/
def stateWithController : PageState :=
  { register_implementors := .fn 0
    pending_implementors := none
    otherGlobals := [] }

/-- A state with the controller reference absent. -/
def stateNoController : PageState :=
  { register_implementors := .undefined
    pending_implementors := none
    otherGlobals := [] }

/-- A state where the controller reference is a truthy non-function. -/
def stateBadController : PageState :=
  { register_implementors := .num 42
    pending_implementors := none
    otherGlobals := [] }

/-- A state with the reference defined but null, and a stale mapping
already sitting in the pending slot. -/
def stateNullRefStaleSlot : PageState :=
  { register_implementors := .null
    pending_implementors := some [("old", ["stale"])]
    otherGlobals := [("page_title", .str "docs")] }

/-- A state with the reference defined but equal to false. -/
def stateFalseRef : PageState :=
  { register_implementors := .bool false
    pending_implementors := none
    otherGlobals := [] }

theorem fragmentRun_fn (s : PageState) (f : Nat)
    (h : s.register_implementors = .fn f) :
    fragmentRun s =
      { outcome := none
        finalState := s
        controllerCalls := [implementors]
        slotWrites := []
        consoleLog := []
        returnValue := .undefined } := by
  simp [fragmentRun, h, JSValue.truthy]

theorem fragmentRun_falsy (s : PageState)
    (h : s.register_implementors.truthy = false) :
    fragmentRun s =
      { outcome := none
        finalState := { s with pending_implementors := some implementors }
        controllerCalls := []
        slotWrites := [implementors]
        consoleLog := []
        returnValue := .undefined } := by
  simp [fragmentRun, h]

theorem fragmentRun_bad (s : PageState)
    (ht : s.register_implementors.truthy = true)
    (hf : ∀ f, s.register_implementors ≠ .fn f) :
    fragmentRun s =
      { outcome := some .typeError
        finalState := s
        controllerCalls := []
        slotWrites := []
        consoleLog := []
        returnValue := .undefined } := by
  cases hv : s.register_implementors with
  | fn f => exact absurd hv (hf f)
  | undefined => rw [hv] at ht; simp [JSValue.truthy] at ht
  | null => rw [hv] at ht; simp [JSValue.truthy] at ht
  | bool b => simp [fragmentRun, hv, hv ▸ ht]
  | num n => simp [fragmentRun, hv, hv ▸ ht]
  | str t => simp [fragmentRun, hv, hv ▸ ht]
  | obj o => simp [fragmentRun, hv, JSValue.truthy]

theorem refOk_truthy_fn (v : JSValue) (h : refOk v = true)
    (ht : v.truthy = true) : ∃ f, v = JSValue.fn f := by
  cases v with
  | fn f => exact ⟨f, rfl⟩
  | undefined => simp [JSValue.truthy] at ht
  | null => simp [JSValue.truthy] at ht
  | bool b => simp_all [refOk, JSValue.truthy]
  | num n => simp_all [refOk, JSValue.truthy]
  | str t => simp_all [refOk, JSValue.truthy]
  | obj o => simp_all [refOk, JSValue.truthy]

theorem fragmentRun_trichotomy (s : PageState) :
    (∃ f, s.register_implementors = JSValue.fn f) ∨
    (s.register_implementors.truthy = true ∧
      ∀ f, s.register_implementors ≠ JSValue.fn f) ∨
    s.register_implementors.truthy = false := by
  cases hv : s.register_implementors with
  | fn f => exact Or.inl ⟨f, rfl⟩
  | undefined => exact Or.inr (Or.inr rfl)
  | null => exact Or.inr (Or.inr rfl)
  | bool b =>
    cases b with
    | false => exact Or.inr (Or.inr rfl)
    | true => exact Or.inr (Or.inl ⟨rfl, by simp⟩)
  | num n =>
    by_cases h0 : n = 0
    · exact Or.inr (Or.inr (by simp [JSValue.truthy, h0]))
    · exact Or.inr (Or.inl ⟨by simp [JSValue.truthy, h0], by simp⟩)
  | str t =>
    by_cases h0 : t = ""
    · exact Or.inr (Or.inr (by simp [JSValue.truthy, h0]))
    · exact Or.inr (Or.inl ⟨by simp [JSValue.truthy, h0], by simp⟩)
  | obj o => exact Or.inr (Or.inl ⟨rfl, by simp⟩)

/-- C1 counterexample: the claim quantifies over every initial page
state, but at the concrete state whose controller reference is the
truthy non-function value 42 the run performs neither hand-off action:
the application throws a TypeError before the controller is invoked or
the slot is written, so the exactly-one-path property fails there. -/
theorem exactly_one_path_counterexample :
    (fragmentRun stateBadController).controllerCalls = [] ∧
    (fragmentRun stateBadController).slotWrites = [] ∧
    (fragmentRun stateBadController).outcome = some JSError.typeError :=
  ⟨rfl, rfl, rfl⟩

/-- C1 (amended): for every initial page state whose controller
reference conforms to the data model of the spec (a function, or a
falsy value covering absence), a single run performs exactly one of the
two hand-off actions: either it invokes the controller exactly once and
writes no slot, or it writes the pending slot exactly once and invokes
no controller — never both, never neither. -/
theorem exactly_one_path (s : PageState)
    (h : refOk s.register_implementors = true) :
    ((fragmentRun s).controllerCalls.length = 1 ∧
      (fragmentRun s).slotWrites = []) ∨
    ((fragmentRun s).controllerCalls = [] ∧
      (fragmentRun s).slotWrites.length = 1) := by
  rcases fragmentRun_trichotomy s with ⟨f, hf⟩ | ⟨ht, hnf⟩ | ht
  · rw [fragmentRun_fn s f hf]
    exact Or.inl ⟨rfl, rfl⟩
  · obtain ⟨f, hf⟩ := refOk_truthy_fn _ h ht
    exact absurd hf (hnf f)
  · rw [fragmentRun_falsy s ht]
    exact Or.inr ⟨rfl, rfl⟩

theorem exactly_one_path_witness :
    ((fragmentRun stateWithController).controllerCalls.length = 1 ∧
      (fragmentRun stateWithController).slotWrites = []) ∨
    ((fragmentRun stateWithController).controllerCalls = [] ∧
      (fragmentRun stateWithController).slotWrites.length = 1) :=
  exactly_one_path stateWithController rfl

/-- C2: when the controller reference is present as a function before
the fragment runs, the run calls the controller exactly once with the
constructed mapping as its sole argument, completes normally, and takes
no further hand-off action: no slot write happens and the whole global
state (the pending slot included) is left exactly as it was. -/
theorem direct_call_property (s : PageState) (f : Nat)
    (h : s.register_implementors = JSValue.fn f) :
    (fragmentRun s).controllerCalls = [implementors] ∧
    (fragmentRun s).slotWrites = [] ∧
    (fragmentRun s).finalState = s ∧
    (fragmentRun s).outcome = none := by
  rw [fragmentRun_fn s f h]
  exact ⟨rfl, rfl, rfl, rfl⟩

theorem direct_call_property_witness :
    (fragmentRun stateWithController).controllerCalls = [implementors] ∧
    (fragmentRun stateWithController).slotWrites = [] ∧
    (fragmentRun stateWithController).finalState = stateWithController ∧
    (fragmentRun stateWithController).outcome = none :=
  direct_call_property stateWithController 0 rfl

/-- C3: when no controller reference is present (the global is
undefined) the run stores exactly the constructed mapping into the
pending slot and never invokes the controller entry point. -/
theorem deferred_property (s : PageState)
    (h : s.register_implementors = JSValue.undefined) :
    (fragmentRun s).finalState.pending_implementors = some implementors ∧
    (fragmentRun s).controllerCalls = [] ∧
    (fragmentRun s).outcome = none := by
  rw [fragmentRun_falsy s (by rw [h]; rfl)]
  exact ⟨rfl, rfl, rfl⟩

theorem deferred_property_witness :
    (fragmentRun stateNoController).finalState.pending_implementors =
      some implementors ∧
    (fragmentRun stateNoController).controllerCalls = [] ∧
    (fragmentRun stateNoController).outcome = none :=
  deferred_property stateNoController rfl

/-- C4: the constructed mapping, built from the empty object, holds
exactly the keys libc, ndarray and sprs in that order; libc is mapped
to the empty sequence (a present key, unlike in the empty mapping,
where lookup is absent), while ndarray and sprs each carry exactly one
descriptor; and every mapping the run ever hands off — through either
path, from any initial state — is this exact mapping. -/
theorem mapping_construction :
    implementors.map Prod.fst = ["libc", "ndarray", "sprs"] ∧
    mlookup implementors "libc" = some [] ∧
    mlookup implementors "ndarray" = some [ndarrayEntry] ∧
    mlookup implementors "sprs" = some [sprsEntry] ∧
    mlookup emptyMapping "libc" = none ∧
    ∀ s : PageState,
      ((fragmentRun s).controllerCalls ++ (fragmentRun s).slotWrites).all
        (fun m => m == implementors) = true := by
  refine ⟨rfl, rfl, rfl, rfl, rfl, ?_⟩
  intro s
  rcases fragmentRun_trichotomy s with ⟨f, hf⟩ | ⟨ht, hnf⟩ | ht
  · rw [fragmentRun_fn s f hf]
    simp
  · rw [fragmentRun_bad s ht hnf]
    rfl
  · rw [fragmentRun_falsy s ht]
    simp

/-- C5: when the controller reference is falsy, the run stores the new
mapping into the pending slot whatever the slot held before — the
previous value is silently discarded — and it completes normally,
invokes nothing, and prints nothing. -/
theorem slot_overwrite (s : PageState)
    (h : s.register_implementors.truthy = false) :
    (fragmentRun s).finalState.pending_implementors = some implementors ∧
    (fragmentRun s).outcome = none ∧
    (fragmentRun s).consoleLog = [] ∧
    (fragmentRun s).controllerCalls = [] := by
  rw [fragmentRun_falsy s h]
  exact ⟨rfl, rfl, rfl, rfl⟩

theorem slot_overwrite_witness :
    (fragmentRun stateNullRefStaleSlot).finalState.pending_implementors =
      some implementors ∧
    (fragmentRun stateNullRefStaleSlot).outcome = none ∧
    (fragmentRun stateNullRefStaleSlot).consoleLog = [] ∧
    (fragmentRun stateNullRefStaleSlot).controllerCalls = [] :=
  slot_overwrite stateNullRefStaleSlot rfl

/-- C6: from every initial state — the throwing one included — the run
never changes the controller reference and never changes any window
property other than the pending slot; the pending slot itself is either
left as it was or set to the constructed mapping. -/
theorem frame_effect (s : PageState) :
    (fragmentRun s).finalState.register_implementors =
      s.register_implementors ∧
    (fragmentRun s).finalState.otherGlobals = s.otherGlobals ∧
    ((fragmentRun s).finalState.pending_implementors =
        s.pending_implementors ∨
      (fragmentRun s).finalState.pending_implementors =
        some implementors) := by
  rcases fragmentRun_trichotomy s with ⟨f, hf⟩ | ⟨ht, hnf⟩ | ht
  · rw [fragmentRun_fn s f hf]
    exact ⟨rfl, rfl, Or.inl rfl⟩
  · rw [fragmentRun_bad s ht hnf]
    exact ⟨rfl, rfl, Or.inl rfl⟩
  · rw [fragmentRun_falsy s ht]
    exact ⟨rfl, rfl, Or.inr rfl⟩

/-- C7 counterexample: the claim asserts normal completion on every
run, but at the concrete state whose controller reference is the truthy
non-function value 42 the run completes abnormally with a TypeError
rather than normally. -/
theorem no_error_counterexample :
    (fragmentRun stateBadController).outcome = some JSError.typeError ∧
    stateBadController.register_implementors = JSValue.num 42 :=
  ⟨rfl, rfl⟩

/-- C7 (amended): for every initial state whose controller reference
conforms to the data model of the spec (a function, or a falsy value
covering absence), the run completes normally: no exception, nothing
printed to the console, and an undefined completion value — also in the
deferred case where the stashed mapping may never be consumed. -/
theorem no_error_amended (s : PageState)
    (h : refOk s.register_implementors = true) :
    (fragmentRun s).outcome = none ∧
    (fragmentRun s).consoleLog = [] ∧
    (fragmentRun s).returnValue = JSValue.undefined := by
  rcases fragmentRun_trichotomy s with ⟨f, hf⟩ | ⟨ht, hnf⟩ | ht
  · rw [fragmentRun_fn s f hf]
    exact ⟨rfl, rfl, rfl⟩
  · obtain ⟨f, hf⟩ := refOk_truthy_fn _ h ht
    exact absurd hf (hnf f)
  · rw [fragmentRun_falsy s ht]
    exact ⟨rfl, rfl, rfl⟩

theorem no_error_amended_witness :
    (fragmentRun stateNoController).outcome = none ∧
    (fragmentRun stateNoController).consoleLog = [] ∧
    (fragmentRun stateNoController).returnValue = JSValue.undefined :=
  no_error_amended stateNoController rfl

/-- C8: under the precondition that the controller reference is absent,
falsy, or a callable function, the run reaches no error state, and the
guarded call of line 5 is applied only when the reference is a
function: whenever the controller was invoked at all, the reference was
a function value. -/
theorem guarded_totality (s : PageState)
    (h : refOk s.register_implementors = true) :
    (fragmentRun s).outcome = none ∧
    ((fragmentRun s).controllerCalls ≠ [] →
      ∃ f, s.register_implementors = JSValue.fn f) := by
  rcases fragmentRun_trichotomy s with ⟨f, hf⟩ | ⟨ht, hnf⟩ | ht
  · rw [fragmentRun_fn s f hf]
    exact ⟨rfl, fun _ => ⟨f, hf⟩⟩
  · obtain ⟨f, hf⟩ := refOk_truthy_fn _ h ht
    exact absurd hf (hnf f)
  · rw [fragmentRun_falsy s ht]
    exact ⟨rfl, fun hc => absurd rfl hc⟩

theorem guarded_totality_witness :
    (fragmentRun stateWithController).outcome = none ∧
    ((fragmentRun stateWithController).controllerCalls ≠ [] →
      ∃ f, stateWithController.register_implementors = JSValue.fn f) :=
  guarded_totality stateWithController rfl

/-- C9: presence is decided by truthiness, not definedness: whenever
the controller reference is defined (not the undefined value) but
falsy, the run takes the deferred path — it writes the pending slot
with the constructed mapping and never invokes the stored value. -/
theorem falsy_defined_deferred (s : PageState)
    (hdef : s.register_implementors ≠ JSValue.undefined)
    (h : s.register_implementors.truthy = false) :
    (fragmentRun s).slotWrites = [implementors] ∧
    (fragmentRun s).controllerCalls = [] ∧
    (fragmentRun s).finalState.pending_implementors = some implementors := by
  rw [fragmentRun_falsy s h]
  exact ⟨rfl, rfl, rfl⟩

theorem falsy_defined_deferred_witness :
    (fragmentRun stateFalseRef).slotWrites = [implementors] ∧
    (fragmentRun stateFalseRef).controllerCalls = [] ∧
    (fragmentRun stateFalseRef).finalState.pending_implementors =
      some implementors :=
  falsy_defined_deferred stateFalseRef (by decide) rfl

/-- C10: the run is deterministic: two runs from equal initial global
states produce identical run results — the same constructed mapping
hand-off, the same trace of controller calls and slot writes, and equal
final states. -/
theorem run_deterministic (s t : PageState) (h : s = t) :
    fragmentRun s = fragmentRun t := by
  rw [h]

theorem run_deterministic_witness :
    fragmentRun stateNoController = fragmentRun stateNoController :=
  run_deterministic stateNoController stateNoController rfl
